import Mathlib

/-!
Verification development for the klarna-network-payment-selector repository.

The backend is a stateless payment orchestration relay. This file gives a
shallow embedding of the parts of the source that the checked claims touch:

* the Paytrail HMAC signature signer (`createPaytrailSignature`,
  `createPaytrailSignatureWithCreds`, from `kn-api-requests.ts` /
  `api/[...].ts`), together with an executable SHA-256 / HMAC-SHA256 over
  byte lists so that signatures can be computed inside Lean;
* the credential resolver (`getAuthConfig`, `defaultAuthMode`,
  `resolveAuthConfig`);
* the per-country customer-token lookup (`getCustomerTokenForCountry`);
* the `/api/payment-request` handlers (the Val Town variant that requires
  `paymentOptionId` and the Vercel variant that treats it as optional),
  the `/api/authorize-payment` handler, and the two interoperability token
  handlers, each split into a pure "prepare" phase (everything before the
  outbound fetch) and an "interpret" phase (the branching on the vendor
  reply), with a call-counting wrapper.

JavaScript conventions are modeled explicitly: absent object fields are
`Option`, and the truthiness of `x || y` on strings treats the empty string
as falsy. Machine integers do not occur in the handlers; the SHA-256 core
works on `Nat` with explicit `% 2^32` reductions.
-/

/-! ## JavaScript string truthiness helpers -/

/-- Truthiness of a JavaScript string: the empty string is falsy. -/
def strTruthy (s : String) : Bool := !(s == "")

/-- Truthiness of a possibly-absent JavaScript string value. -/
def optTruthy : Option String → Bool
  | some s => strTruthy s
  | none => false

/-- JavaScript `a || b` where `a` may be absent and `b` is a definite string. -/
def jsOrStr (a : Option String) (b : String) : String :=
  match a with
  | some s => if s == "" then b else s
  | none => b

/-- JavaScript `a || b` on two possibly-absent string values. -/
def jsOrOpt (a b : Option String) : Option String :=
  if optTruthy a then a else b

/-- JavaScript `a || b || c` on two possibly-absent strings with a definite default. -/
def jsOr3 (a b : Option String) (c : String) : String :=
  jsOrStr (jsOrOpt a b) c

/-- String interpolation of a possibly-absent value, as JavaScript template
literals render it: `undefined` when the value is absent. -/
def jsInterp : Option String → String
  | some s => s
  | none => "undefined"

/-! ## Executable SHA-256 over byte lists

A byte is a `Nat` below 256; a word is a `Nat` below `2^32`, with overflow
handled by explicit `% 4294967296` reductions, mirroring what Node's
`crypto.createHmac("sha256", ...)` computes.
-/

/-- Reduce modulo `2^32`. -/
def w32 (n : Nat) : Nat := n % 4294967296

/-- Addition modulo `2^32`. -/
def add32 (a b : Nat) : Nat := (a + b) % 4294967296

/-- Right rotation of a 32-bit word. -/
def rotr32 (x n : Nat) : Nat :=
  (x >>> n) ||| ((x <<< (32 - n)) % 4294967296)

/-- Bitwise complement of a 32-bit word. -/
def not32 (x : Nat) : Nat := x ^^^ 4294967295

/-- SHA-256 choice function. -/
def shaCh (x y z : Nat) : Nat := (x &&& y) ^^^ (not32 x &&& z)

/-- SHA-256 majority function. -/
def shaMaj (x y z : Nat) : Nat := (x &&& y) ^^^ (x &&& z) ^^^ (y &&& z)

/-- SHA-256 big sigma 0. -/
def bigS0 (x : Nat) : Nat := rotr32 x 2 ^^^ rotr32 x 13 ^^^ rotr32 x 22

/-- SHA-256 big sigma 1. -/
def bigS1 (x : Nat) : Nat := rotr32 x 6 ^^^ rotr32 x 11 ^^^ rotr32 x 25

/-- SHA-256 small sigma 0. -/
def smallS0 (x : Nat) : Nat := rotr32 x 7 ^^^ rotr32 x 18 ^^^ (x >>> 3)

/-- SHA-256 small sigma 1. -/
def smallS1 (x : Nat) : Nat := rotr32 x 17 ^^^ rotr32 x 19 ^^^ (x >>> 10)

/-- The 64 SHA-256 round constants. -/
def K256 : List Nat :=
  [1116352408, 1899447441, 3049323471, 3921009573,
   961987163, 1508970993, 2453635748, 2870763221,
   3624381080, 310598401, 607225278, 1426881987,
   1925078388, 2162078206, 2614888103, 3248222580,
   3835390401, 4022224774, 264347078, 604807628,
   770255983, 1249150122, 1555081692, 1996064986,
   2554220882, 2821834349, 2952996808, 3210313671,
   3336571891, 3584528711, 113926993, 338241895,
   666307205, 773529912, 1294757372, 1396182291,
   1695183700, 1986661051, 2177026350, 2456956037,
   2730485921, 2820302411, 3259730800, 3345764771,
   3516065817, 3600352804, 4094571909, 275423344,
   430227734, 506948616, 659060556, 883997877,
   958139571, 1322822218, 1537002063, 1747873779,
   1955562222, 2024104815, 2227730452, 2361852424,
   2428436474, 2756734187, 3204031479, 3329325298]

/-- Big-endian 32-bit word from four bytes of a block at word index `i`. -/
def be32At (b : List Nat) (i : Nat) : Nat :=
  (b.getD (4 * i) 0) <<< 24 ||| (b.getD (4 * i + 1) 0) <<< 16 |||
  (b.getD (4 * i + 2) 0) <<< 8 ||| b.getD (4 * i + 3) 0

/-- The 16 message words of a 64-byte block. -/
def blockWords (block : List Nat) : List Nat :=
  (List.range 16).map (be32At block)

/-- Extend 16 message words to the 64-entry SHA-256 message schedule. -/
def sha256Schedule (ws : List Nat) : List Nat :=
  (List.range 48).foldl
    (fun acc i =>
      acc ++ [add32 (add32 (smallS1 (acc.getD (i + 14) 0)) (acc.getD (i + 9) 0))
                    (add32 (smallS0 (acc.getD (i + 1) 0)) (acc.getD i 0))])
    ws

/-- SHA-256 working state: the eight 32-bit registers. -/
abbrev ShaState := Nat × Nat × Nat × Nat × Nat × Nat × Nat × Nat

/-- One SHA-256 round. -/
def sha256Round (st : ShaState) (kw : Nat × Nat) : ShaState :=
  match st with
  | (a, b, c, d, e, f, g, h) =>
    let t1 := add32 (add32 (add32 h (bigS1 e)) (add32 (shaCh e f g) kw.1)) kw.2
    let t2 := add32 (bigS0 a) (shaMaj a b c)
    (add32 t1 t2, a, b, c, add32 d t1, e, f, g)

/-- SHA-256 compression of one 64-byte block into the running state. -/
def sha256Compress (st : ShaState) (block : List Nat) : ShaState :=
  let ws := sha256Schedule (blockWords block)
  match st, (K256.zip ws).foldl sha256Round st with
  | (a, b, c, d, e, f, g, h), (a', b', c', d', e', f', g', h') =>
    (add32 a a', add32 b b', add32 c c', add32 d d',
     add32 e e', add32 f f', add32 g g', add32 h h')

/-- Split a byte list into 64-byte chunks, driven by an explicit fuel so that
the recursion is structural and kernel-reducible. -/
def chunksAux : Nat → List Nat → List (List Nat)
  | 0, _ => []
  | _, [] => []
  | fuel + 1, l => l.take 64 :: chunksAux fuel (l.drop 64)

/-- Split a byte list into 64-byte chunks. -/
def chunks64 (l : List Nat) : List (List Nat) := chunksAux l.length l

/-- Big-endian 8-byte encoding of a length in bits. -/
def be64 (n : Nat) : List Nat :=
  [(n >>> 56) &&& 255, (n >>> 48) &&& 255, (n >>> 40) &&& 255, (n >>> 32) &&& 255,
   (n >>> 24) &&& 255, (n >>> 16) &&& 255, (n >>> 8) &&& 255, n &&& 255]

/-- Big-endian 4-byte encoding of a 32-bit word. -/
def be32Bytes (w : Nat) : List Nat :=
  [(w >>> 24) &&& 255, (w >>> 16) &&& 255, (w >>> 8) &&& 255, w &&& 255]

/-- SHA-256 of a byte list, as a 32-byte list. -/
def sha256 (msg : List Nat) : List Nat :=
  let padded := msg ++ [128] ++
    List.replicate ((64 - ((msg.length + 9) % 64)) % 64) 0 ++ be64 (8 * msg.length)
  match (chunks64 padded).foldl sha256Compress
      (1779033703, 3144134277, 1013904242, 2773480762,
       1359893119, 2600822924, 528734635, 1541459225) with
  | (a, b, c, d, e, f, g, h) =>
    ([a, b, c, d, e, f, g, h].map be32Bytes).flatten

/-- HMAC-SHA256 with byte-list key and message. -/
def hmacSha256 (key msg : List Nat) : List Nat :=
  let key' := if key.length > 64 then sha256 key else key
  let key64 := key' ++ List.replicate (64 - key'.length) 0
  let ipadKey := key64.map (fun b => b ^^^ 54)
  let opadKey := key64.map (fun b => b ^^^ 92)
  sha256 (opadKey ++ sha256 (ipadKey ++ msg))

/-- UTF-8 encoding of one character. -/
def utf8Char (c : Char) : List Nat :=
  let n := c.toNat
  if n < 128 then [n]
  else if n < 2048 then [192 ||| (n >>> 6), 128 ||| (n &&& 63)]
  else if n < 65536 then
    [224 ||| (n >>> 12), 128 ||| ((n >>> 6) &&& 63), 128 ||| (n &&& 63)]
  else
    [240 ||| (n >>> 18), 128 ||| ((n >>> 12) &&& 63),
     128 ||| ((n >>> 6) &&& 63), 128 ||| (n &&& 63)]

/-- UTF-8 encoding of a string as a byte list. -/
def utf8Encode (s : String) : List Nat := (s.data.map utf8Char).flatten

/-- Lowercase hex digit for a value below 16. -/
def hexDigit (n : Nat) : Char := "0123456789abcdef".data.getD n '0'

/-- Lowercase hex encoding of a byte list, as Node `digest("hex")` renders it. -/
def hexEncode (bytes : List Nat) : String :=
  String.mk ((bytes.map (fun b => [hexDigit (b / 16), hexDigit (b % 16)])).flatten)

set_option maxRecDepth 100000

/-- Standard test vector: SHA-256 of the ASCII string `abc`. -/
theorem sha256_abc_vector :
    hexEncode (sha256 (utf8Encode "abc")) =
      "ba7816bf8f01cfea414140de5dae2223b00361a396177a9cb410ff61f20015ad" := by
  decide

/-- Standard test vector: HMAC-SHA256 with key `key` over the quick-brown-fox
sentence. -/
theorem hmacSha256_fox_vector :
    hexEncode (hmacSha256 (utf8Encode "key")
      (utf8Encode "The quick brown fox jumps over the lazy dog")) =
      "f7bc83f430538424b13298e6aa6fb143ef4d59a14946175997479dbc2d1a3cd8" := by
  decide

/-! ## Paytrail signature signer

Models `createPaytrailSignature` and `createPaytrailSignatureWithCreds`
(both occur verbatim in `kn-api-requests.ts` and `api/[...].ts`).
The impure inputs of the source — `new Date().toISOString()` and
`crypto.randomUUID()`, plus the two `PAYTRAIL_*` environment variables for
the credential-less variant — are passed as explicit parameters. JavaScript
objects with string keys are association lists; `Object.keys(...).sort()`
sorts keys by code-unit order, modeled by a lexicographic insertion sort. -/

/-- Lexicographic order on character lists by code point, as JavaScript
default string comparison behaves on code units. -/
def charListLe : List Char → List Char → Bool
  | [], _ => true
  | _ :: _, [] => false
  | a :: as, b :: bs =>
    if a.toNat < b.toNat then true
    else if b.toNat < a.toNat then false
    else charListLe as bs

/-- String comparison used by the JavaScript default sort. -/
def strLe (a b : String) : Bool := charListLe a.data b.data

/-- Insert a string into a sorted list of strings. -/
def insertStr (s : String) : List String → List String
  | [] => [s]
  | t :: ts => if strLe s t then s :: t :: ts else t :: insertStr s ts

/-- Insertion sort of a string list, as `Object.keys(...).sort()`. -/
def sortStrs : List String → List String
  | [] => []
  | s :: ss => insertStr s (sortStrs ss)

/-- Property lookup `obj[key]` on an association-list object, defaulting to
the empty rendering for a missing key. -/
def lookupD (obj : List (String × String)) (k : String) : String :=
  (obj.lookup k).getD ""

/-- Overwrite-or-append one property, the per-key step of `Object.assign`. -/
def assignProp (obj : List (String × String)) (p : String × String) :
    List (String × String) :=
  if obj.any (fun q => q.1 == p.1) then
    obj.map (fun q => if q.1 == p.1 then (q.1, p.2) else q)
  else obj ++ [p]

/-- JavaScript `Object.assign(base, extra)` on association-list objects. -/
def objAssign (base extra : List (String × String)) : List (String × String) :=
  extra.foldl assignProp base

/-- Result shape of the signer: the signature headers and the hex signature. -/
structure SignedRequest where
  headers : List (String × String)
  signature : String
deriving DecidableEq, Repr

/-- The five `checkout-*` signature headers, in source insertion order, with
request-specific headers assigned on top. -/
def paytrailSignatureHeaders (account method nonce timestamp : String)
    (headers : List (String × String)) : List (String × String) :=
  objAssign
    [("checkout-account", account),
     ("checkout-algorithm", "sha256"),
     ("checkout-method", method),
     ("checkout-nonce", nonce),
     ("checkout-timestamp", timestamp)]
    headers

/-- Canonical string: keys sorted, rendered `key:value`, joined with line
feeds, one more line feed, then the body appended verbatim. -/
def paytrailSignatureString (sigHeaders : List (String × String))
    (body : String) : String :=
  String.intercalate "\n"
    ((sortStrs (sigHeaders.map Prod.fst)).map (fun k => k ++ ":" ++ lookupD sigHeaders k))
    ++ "\n" ++ body

/-- Model of `createPaytrailSignature(method, uri, headers, body)` from
`kn-api-requests.ts` lines 2169-2206 and `api/[...].ts` lines 2495-2532:
`merchantId`/`secretKey` stand for `PAYTRAIL_MERCHANT_ID || ""` and
`PAYTRAIL_SECRET_KEY || ""`, and `nonce`/`timestamp` for the per-call
`crypto.randomUUID()` and `new Date().toISOString()`. The `uri` parameter is
unused in the source as well. -/
def createPaytrailSignature (method uri : String)
    (headers : List (String × String)) (body : String)
    (merchantId secretKey nonce timestamp : String) : SignedRequest :=
  let signatureHeaders := paytrailSignatureHeaders merchantId method nonce timestamp headers
  let signatureString := paytrailSignatureString signatureHeaders body
  { headers := signatureHeaders,
    signature := hexEncode (hmacSha256 (utf8Encode secretKey) (utf8Encode signatureString)) }

/-- Model of `createPaytrailSignatureWithCreds` from `kn-api-requests.ts`
lines 2211-2238: the same computation with the merchant id and secret key
passed explicitly. -/
def createPaytrailSignatureWithCreds (method uri : String)
    (headers : List (String × String)) (body : String)
    (merchantId secretKey : String) (nonce timestamp : String) : SignedRequest :=
  let signatureHeaders := paytrailSignatureHeaders merchantId method nonce timestamp headers
  let signatureString := paytrailSignatureString signatureHeaders body
  { headers := signatureHeaders,
    signature := hexEncode (hmacSha256 (utf8Encode secretKey) (utf8Encode signatureString)) }

/-- Carriage-return stripping `bodyString.replace(/\r/g, "")`, as performed by
the Postman and Bruno client scripts in the repository (but, notably, not by
the server-side signer). -/
def stripCarriageReturns (s : String) : String :=
  String.mk (s.data.filter (fun c => !(c == '\r')))

/-! ## Credential resolver

Models the environment-derived configuration and `getAuthConfig` /
`defaultAuthMode` / `resolveAuthConfig` from `kn-api-requests.ts` lines
76-197 (the same code occurs in the second document of `api/[...].ts`).
Environment variables read through `getEnv` default to the empty string, so
the environment is a record of five strings. -/

/-- The five credential environment variables, as read by `getEnv` (absent
variables read as the empty string). -/
structure Env where
  AP_CLIENT_ID : String
  AP_API_KEY : String
  PARTNER_ACCOUNT_ID : String
  SP_CLIENT_ID : String
  SP_API_KEY : String
deriving DecidableEq, Repr

/-- Truthiness of `AP_CLIENT_ID && AP_API_KEY && PARTNER_ACCOUNT_ID`. -/
def hasAcquiringPartnerConfig (e : Env) : Bool :=
  strTruthy e.AP_CLIENT_ID && strTruthy e.AP_API_KEY && strTruthy e.PARTNER_ACCOUNT_ID

/-- Truthiness of `SP_CLIENT_ID && SP_API_KEY`. -/
def hasSubPartnerConfig (e : Env) : Bool :=
  strTruthy e.SP_CLIENT_ID && strTruthy e.SP_API_KEY

/-- The two authentication mode names. -/
inductive AuthMode where
  | SUB_PARTNER
  | ACQUIRING_PARTNER
deriving DecidableEq, Repr

/-- Resolved credential set, mirroring the `AuthConfig` interface. -/
structure AuthConfig where
  clientId : String
  apiKey : String
  partnerAccountId : Option String
  isAcquiringPartner : Bool
deriving DecidableEq, Repr

/-- Model of `getAuthConfig(mode)`: the credentials of a mode, or `null` when
that mode is not fully configured. -/
def getAuthConfig (e : Env) : AuthMode → Option AuthConfig
  | .ACQUIRING_PARTNER =>
    if strTruthy e.AP_CLIENT_ID && strTruthy e.AP_API_KEY && strTruthy e.PARTNER_ACCOUNT_ID then
      some { clientId := e.AP_CLIENT_ID, apiKey := e.AP_API_KEY,
             partnerAccountId := some e.PARTNER_ACCOUNT_ID, isAcquiringPartner := true }
    else none
  | .SUB_PARTNER =>
    if strTruthy e.SP_CLIENT_ID && strTruthy e.SP_API_KEY then
      some { clientId := e.SP_CLIENT_ID, apiKey := e.SP_API_KEY,
             partnerAccountId := none, isAcquiringPartner := false }
    else none

/-- Model of the process-wide `defaultAuthMode` constant: Acquiring Partner
preferred when configured, Sub Partner otherwise. -/
def defaultAuthMode (e : Env) : AuthMode :=
  if hasAcquiringPartnerConfig e then .ACQUIRING_PARTNER else .SUB_PARTNER

/-- ASCII fragment of JavaScript `toUpperCase`, per character. The inputs at
issue (mode names, two-letter country codes) are ASCII. -/
def jsCharToUpper (c : Char) : Char :=
  if 97 ≤ c.toNat ∧ c.toNat ≤ 122 then Char.ofNat (c.toNat - 32) else c

/-- ASCII fragment of JavaScript `String.prototype.toUpperCase`. -/
def jsToUpper (s : String) : String := String.mk (s.data.map jsCharToUpper)

/-- The mode named by `requestedMode?.toUpperCase()`, or `none` when the
request names neither mode (including an absent parameter). -/
def parseRequestedMode : Option String → Option AuthMode
  | none => none
  | some s =>
    if jsToUpper s == "SUB_PARTNER" then some .SUB_PARTNER
    else if jsToUpper s == "ACQUIRING_PARTNER" then some .ACQUIRING_PARTNER
    else none

/-- Model of `resolveAuthConfig(requestedMode)` from `kn-api-requests.ts`
lines 180-197: resolve the requested mode, falling back to the default mode,
and throw (modeled as `Except.error`) when nothing is configured. -/
def resolveAuthConfig (e : Env) (requestedMode : Option String) :
    Except String AuthConfig :=
  let mode := (parseRequestedMode requestedMode).getD (defaultAuthMode e)
  match getAuthConfig e mode with
  | some config => .ok config
  | none =>
    match getAuthConfig e (defaultAuthMode e) with
    | some fallbackConfig => .ok fallbackConfig
    | none => .error "No authentication configuration available"

/-- The Acquiring-Partner credential record, as the claim words it. -/
def apCreds (e : Env) : AuthConfig :=
  { clientId := e.AP_CLIENT_ID, apiKey := e.AP_API_KEY,
    partnerAccountId := some e.PARTNER_ACCOUNT_ID, isAcquiringPartner := true }

/-- The Sub-Partner credential record, as the claim words it. -/
def spCreds (e : Env) : AuthConfig :=
  { clientId := e.SP_CLIENT_ID, apiKey := e.SP_API_KEY,
    partnerAccountId := none, isAcquiringPartner := false }

/-- Credentials of a mode, by name. -/
def credsOf (e : Env) : AuthMode → AuthConfig
  | .ACQUIRING_PARTNER => apCreds e
  | .SUB_PARTNER => spCreds e

/-- Whether a mode has a fully configured credential set. -/
def fullyConfigured (e : Env) : AuthMode → Bool
  | .ACQUIRING_PARTNER => hasAcquiringPartnerConfig e
  | .SUB_PARTNER => hasSubPartnerConfig e

/-- Specification-side restatement of claim C9, written from the words of the
claim: a requested mode that names a fully configured mode resolves to that
mode, anything else resolves to the default mode (Acquiring Partner when
fully configured, else Sub Partner), and a configuration error arises exactly
when neither mode is complete. -/
def resolveAuthConfigSpec (e : Env) (requestedMode : Option String) :
    Except String AuthConfig :=
  match parseRequestedMode requestedMode with
  | some md =>
    if fullyConfigured e md then .ok (credsOf e md)
    else if hasAcquiringPartnerConfig e then .ok (apCreds e)
    else if hasSubPartnerConfig e then .ok (spCreds e)
    else .error "No authentication configuration available"
  | none =>
    if hasAcquiringPartnerConfig e then .ok (apCreds e)
    else if hasSubPartnerConfig e then .ok (spCreds e)
    else .error "No authentication configuration available"

/-! ## Per-country customer tokens

Models `KLARNA_CUSTOMER_TOKENS` (a JSON object of country to token, here an
association list) and `getCustomerTokenForCountry` from `kn-api-requests.ts`
lines 157-163 (same in `api/[...].ts`). -/

/-- Model of `getCustomerTokenForCountry(country)`: falsy country gives
`null`; otherwise look up the uppercased country code, with the trailing
`|| null` of the source turning a falsy (empty-string) token into `null`. -/
def getCustomerTokenForCountry (tokens : List (String × String))
    (country : String) : Option String :=
  if country == "" then none
  else
    match tokens.lookup (jsToUpper country) with
    | some t => if t == "" then none else some t
    | none => none

/-! ## Payment request data model and payload transformer

Models the caller-supplied `paymentRequestData` (camelCase) and the
snake_case wire payloads, including `transformSupplementaryPurchaseData`
(`kn-api-requests.ts` lines 1444-1506). Absent JSON fields are `Option`;
JSON numbers are `Int`. -/

/-- One caller-supplied line item. -/
structure LineItemData where
  name : Option String
  quantity : Option Int
  totalAmount : Option Int
  unitPrice : Option Int
  lineItemReference : Option String
  subscriptionReference : Option String
deriving DecidableEq, Repr

/-- Caller-supplied on-demand service terms. The irregular inner field name
`purchaseInterval_frequency` is the quirk of the source. -/
structure OndemandServiceData where
  averageAmount : Option Int
  minimumAmount : Option Int
  maximumAmount : Option Int
  purchaseInterval : Option String
  purchaseInterval_frequency : Option Int
deriving DecidableEq, Repr

/-- One caller-supplied billing plan. `fromDate` models the source field
named `from` (a reserved word in Lean). -/
structure BillingPlanData where
  billingAmount : Option Int
  currency : Option String
  fromDate : Option String
  interval : Option String
  intervalFrequency : Option Int
deriving DecidableEq, Repr

/-- One caller-supplied subscription. -/
structure SubscriptionData where
  subscriptionReference : Option String
  name : Option String
  freeTrial : Option Bool
  billingPlans : Option (List BillingPlanData)
deriving DecidableEq, Repr

/-- The caller-supplied supplementary purchase data block. -/
structure SupplementaryPurchaseData where
  purchaseReference : Option String
  lineItems : Option (List LineItemData)
  ondemandService : Option OndemandServiceData
  subscriptions : Option (List SubscriptionData)
deriving DecidableEq, Repr

/-- The caller-supplied customer-token request block. -/
structure CustomerTokenRequestData where
  scopes : Option (List String)
  customerTokenReference : Option String
deriving DecidableEq, Repr

/-- The caller-supplied `paymentRequestData` object. -/
structure PaymentRequestData where
  currency : Option String
  paymentRequestReference : Option String
  amount : Option Int
  intents : Option (List String)
  paymentOptionId : Option String
  supplementaryPurchaseData : Option SupplementaryPurchaseData
  requestCustomerToken : Option CustomerTokenRequestData
deriving DecidableEq, Repr

/-- Wire form of a line item. -/
structure LineItemWire where
  name : Option String
  quantity : Option Int
  total_amount : Option Int
  unit_price : Option Int
  line_item_reference : Option String
  subscription_reference : Option String
deriving DecidableEq, Repr

/-- Wire form of the on-demand service block. -/
structure OndemandServiceWire where
  average_amount : Option Int
  minimum_amount : Option Int
  maximum_amount : Option Int
  purchase_interval : Option String
  purchase_interval_frequency : Option Int
deriving DecidableEq, Repr

/-- Wire form of a billing plan; `fromDate` models the wire key `from`. -/
structure BillingPlanWire where
  billing_amount : Option Int
  currency : Option String
  fromDate : Option String
  interval : Option String
  interval_frequency : Option Int
deriving DecidableEq, Repr

/-- Wire form of a subscription. -/
structure SubscriptionWire where
  subscription_reference : Option String
  name : Option String
  free_trial : Option Bool
  billing_plans : Option (List BillingPlanWire)
deriving DecidableEq, Repr

/-- Wire form of the supplementary purchase data block. -/
structure SuppWire where
  purchase_reference : Option String
  line_items : Option (List LineItemWire)
  ondemand_service : Option OndemandServiceWire
  subscriptions : Option (List SubscriptionWire)
deriving DecidableEq, Repr

/-- Model of `transformSupplementaryPurchaseData(data)`: mechanical renaming
to snake_case, with `line_item_reference` / `subscription_reference` only
set when truthy, and `{}` for an absent input. -/
def transformSupplementaryPurchaseData (data : Option SupplementaryPurchaseData) :
    SuppWire :=
  match data with
  | none =>
    { purchase_reference := none, line_items := none,
      ondemand_service := none, subscriptions := none }
  | some d =>
    { purchase_reference := if optTruthy d.purchaseReference then d.purchaseReference else none
      line_items := d.lineItems.map (List.map (fun item =>
        { name := item.name, quantity := item.quantity,
          total_amount := item.totalAmount, unit_price := item.unitPrice,
          line_item_reference :=
            if optTruthy item.lineItemReference then item.lineItemReference else none,
          subscription_reference :=
            if optTruthy item.subscriptionReference then item.subscriptionReference else none }))
      ondemand_service := d.ondemandService.map (fun o =>
        { average_amount := o.averageAmount, minimum_amount := o.minimumAmount,
          maximum_amount := o.maximumAmount, purchase_interval := o.purchaseInterval,
          purchase_interval_frequency := o.purchaseInterval_frequency })
      subscriptions := d.subscriptions.map (List.map (fun sub =>
        { subscription_reference := sub.subscriptionReference, name := sub.name,
          free_trial := sub.freeTrial,
          billing_plans := sub.billingPlans.map (List.map (fun plan =>
            { billing_amount := plan.billingAmount, currency := plan.currency,
              fromDate := plan.fromDate, interval := plan.interval,
              interval_frequency := plan.intervalFrequency })) })) }

/-- Model of the `isOnlyAddToWallet` test: the intents array exists, has
length exactly one, and its only entry is `ADD_TO_WALLET`. -/
def isOnlyAddToWallet : Option (List String) → Bool
  | none => false
  | some l => l.length == 1 && l.headD "" == "ADD_TO_WALLET"

/-- Wire form of `customer_interaction_config`. -/
structure CustomerInteractionConfigWire where
  method : String
  return_url : String
  app_return_url : Option String
deriving DecidableEq, Repr

/-- Wire form of `request_customer_token`. -/
structure CustomerTokenRequestWire where
  scopes : Option (List String)
  customer_token_reference : Option String
deriving DecidableEq, Repr

/-- Wire payload of the Payment Request API call. An `amount` of `none`
means the key is absent from the serialized JSON (the source either leaves
the key unset or sets it to an absent value, which `JSON.stringify` drops
the same way). -/
structure PaymentRequestWire where
  currency : Option String
  payment_request_reference : String
  payment_option_id : Option String
  customer_interaction_config : CustomerInteractionConfigWire
  amount : Option Int
  supplementary_purchase_data : Option SuppWire
  request_customer_token : Option CustomerTokenRequestWire
deriving DecidableEq, Repr

/-- Build the Payment Request wire payload (`kn-api-requests.ts` lines
991-1024). `now` stands for `Date.now()`, `origin` for the request origin;
`paymentOptionId` is the already-resolved value (`some` in the Val Town
variant, conditional in the Vercel variant). -/
def buildPaymentRequestWire (data : PaymentRequestData)
    (paymentOptionId : Option String) (returnUrl appReturnUrl : Option String)
    (origin : String) (now : Nat) : PaymentRequestWire :=
  { currency := data.currency
    payment_request_reference :=
      jsOrStr data.paymentRequestReference ("req_" ++ toString now)
    payment_option_id := paymentOptionId
    customer_interaction_config :=
      { method := "HANDOVER"
        return_url := jsOrStr returnUrl (origin ++ "/payment-complete")
        app_return_url := if optTruthy appReturnUrl then appReturnUrl else none }
    amount := if isOnlyAddToWallet data.intents then none else data.amount
    supplementary_purchase_data :=
      data.supplementaryPurchaseData.map (fun d => transformSupplementaryPurchaseData (some d))
    request_customer_token := data.requestCustomerToken.map (fun r =>
      { scopes := r.scopes, customer_token_reference := r.customerTokenReference }) }

/-! ## Payment-request handlers

Each handler is split into a pure prepare phase — everything the source does
before `fetchWithMtls`, in source order, with early `c.json(...)` returns as
`Except.error` — and an interpret phase over the vendor reply. A wrapper
pairs the caller-visible response with the number of outbound vendor calls
made. -/

/-- Request body of `POST /api/payment-request`. The Vercel variant does not
read `authMode`; the field is simply ignored there. -/
structure PRBody where
  klarnaNetworkSessionToken : Option String
  paymentOptionId : Option String
  paymentRequestData : Option PaymentRequestData
  returnUrl : Option String
  appReturnUrl : Option String
  includeCustomerToken : Bool
  country : Option String
  authMode : Option String
deriving DecidableEq, Repr

/-- Caller-visible response of the payment-request handlers, dropping the
`_request`/`_response` logging metadata and the `details` passthrough. -/
inductive PRResponse where
  | error (httpStatus : Nat) (message : String)
  | completed (paymentRequestId : Option String) (successUrl : String)
      (expiresAt : Option String)
  | created (paymentRequestId paymentRequestUrl expiresAt : Option String)
deriving DecidableEq, Repr

/-- The customer-token ternary of the handlers:
`includeCustomerToken && country ? getCustomerTokenForCountry(country) : null`. -/
def lookupCustomerTokenHeaderValue (tokens : List (String × String))
    (includeCustomerToken : Bool) (country : Option String) : Option String :=
  if includeCustomerToken && optTruthy country then
    getCustomerTokenForCountry tokens (country.getD "")
  else none

/-- The outbound header block shared by the payment handlers: authorization
and content type, then the network-session-token and customer-token headers
when their values are truthy. -/
def buildKlarnaHeaders (apiKey : String)
    (klarnaNetworkSessionToken customerToken : Option String) :
    List (String × String) :=
  [("Authorization", "Basic " ++ apiKey), ("Content-Type", "application/json")]
  ++ (if optTruthy klarnaNetworkSessionToken then
        [("Klarna-Network-Session-Token", klarnaNetworkSessionToken.getD "")] else [])
  ++ (if optTruthy customerToken then
        [("Klarna-Customer-Token", customerToken.getD "")] else [])

/-- An outbound Payment Request API call. -/
structure OutboundRequest where
  url : String
  headers : List (String × String)
  payload : PaymentRequestWire
deriving DecidableEq, Repr

/-- Prepare phase of the Val Town `POST /api/payment-request` handler
(`kn-api-requests.ts` lines 937-1033; identical in the second document of
`api/[...].ts`): resolve credentials, require `paymentRequestData`, require
a `paymentOptionId` from either source, then build payload and headers. -/
def valTownPaymentRequestPrepare (e : Env) (tokens : List (String × String))
    (body : PRBody) (baseUrl origin : String) (now : Nat) :
    Except PRResponse OutboundRequest :=
  match resolveAuthConfig e body.authMode with
  | .error _ =>
    .error (.error 500 "Server configuration error: No authentication configured")
  | .ok auth =>
    match body.paymentRequestData with
    | none =>
      .error (.error 400 "Missing required field: paymentRequestData is required")
    | some data =>
      let resolvedPaymentOptionId := jsOrOpt body.paymentOptionId data.paymentOptionId
      if !(optTruthy resolvedPaymentOptionId) then
        .error (.error 400
          "Missing paymentOptionId: provide it directly or include it in paymentRequestData")
      else
        let customerToken :=
          lookupCustomerTokenHeaderValue tokens body.includeCustomerToken body.country
        .ok { url := baseUrl ++ "/v2/payment/requests"
              headers := buildKlarnaHeaders auth.apiKey body.klarnaNetworkSessionToken customerToken
              payload := buildPaymentRequestWire data resolvedPaymentOptionId
                body.returnUrl body.appReturnUrl origin now }

/-- Environment of the Vercel deployment (Sub-Partner credentials only). -/
structure VercelEnv where
  SP_CLIENT_ID : String
  SP_API_KEY : String
deriving DecidableEq, Repr

/-- Model of the Vercel `resolveAuthConfig()` / `getAuthConfig()`: always
Sub-Partner, throwing when the two variables are not both set. -/
def vercelResolveAuthConfig (e : VercelEnv) : Except String (String × String) :=
  if strTruthy e.SP_CLIENT_ID && strTruthy e.SP_API_KEY then
    .ok (e.SP_CLIENT_ID, e.SP_API_KEY)
  else
    .error "Sub Partner authentication configuration not available. Please set SP_CLIENT_ID and SP_API_KEY environment variables."

/-- Prepare phase of the Vercel `POST /api/payment-request` handler
(`api/[...].ts` lines 387-485): same shape, except `paymentOptionId` is
optional — `payment_option_id` is only included in the payload when a truthy
value was resolved, and no 400 is raised when it is absent. -/
def vercelPaymentRequestPrepare (e : VercelEnv) (tokens : List (String × String))
    (body : PRBody) (baseUrl origin : String) (now : Nat) :
    Except PRResponse OutboundRequest :=
  match vercelResolveAuthConfig e with
  | .error _ =>
    .error (.error 500 "Server configuration error: No authentication configured")
  | .ok auth =>
    match body.paymentRequestData with
    | none =>
      .error (.error 400 "Missing required field: paymentRequestData is required")
    | some data =>
      let resolvedPaymentOptionId := jsOrOpt body.paymentOptionId data.paymentOptionId
      let customerToken :=
        lookupCustomerTokenHeaderValue tokens body.includeCustomerToken body.country
      .ok { url := baseUrl ++ "/v2/payment/requests"
            headers := buildKlarnaHeaders auth.2 body.klarnaNetworkSessionToken customerToken
            payload := buildPaymentRequestWire data
              (if optTruthy resolvedPaymentOptionId then resolvedPaymentOptionId else none)
              body.returnUrl body.appReturnUrl origin now }

/-- Fields of `customer_interaction_config` read from the vendor reply. -/
structure CICReply where
  return_url : Option String
deriving DecidableEq, Repr

/-- Fields of the nested `customer_interaction` object of the vendor reply. -/
structure CustomerInteractionReply where
  payment_request_id : Option String
  payment_request_url : Option String
deriving DecidableEq, Repr

/-- Fields of `state_context` read from the vendor reply. -/
structure StateContextReply where
  customer_interaction : Option CustomerInteractionReply
deriving DecidableEq, Repr

/-- Fields of the Payment Request API reply body that the handler reads. -/
structure PRKlarnaData where
  state : Option String
  payment_request_id : Option String
  expires_at : Option String
  error_message : Option String
  customer_interaction_config : Option CICReply
  state_context : Option StateContextReply
deriving DecidableEq, Repr

/-- A vendor HTTP reply: `ok` is `response.ok` (2xx), `httpStatus` the
status code, `data` the parsed JSON body. -/
structure VendorReply where
  ok : Bool
  httpStatus : Nat
  data : PRKlarnaData
deriving DecidableEq, Repr

/-- Interpret phase of the payment-request handlers (`kn-api-requests.ts`
lines 1103-1147, identical in `api/[...].ts`): non-2xx becomes `ERROR` with
the vendor `error_message` when truthy; `state == "COMPLETED"` becomes
`COMPLETED` with the echoed return URL, falling back to the caller
`returnUrl`, then to `/payment-complete`; anything else becomes `CREATED`
with the ids from `state_context.customer_interaction`. -/
def paymentRequestInterpret (returnUrl : Option String) (reply : VendorReply) :
    PRResponse :=
  if !reply.ok then
    .error reply.httpStatus (jsOrStr reply.data.error_message "Payment request creation failed")
  else if reply.data.state == some "COMPLETED" then
    .completed reply.data.payment_request_id
      (jsOr3 (reply.data.customer_interaction_config.bind CICReply.return_url)
        returnUrl "/payment-complete")
      reply.data.expires_at
  else
    .created
      ((reply.data.state_context.bind StateContextReply.customer_interaction).bind
        CustomerInteractionReply.payment_request_id)
      ((reply.data.state_context.bind StateContextReply.customer_interaction).bind
        CustomerInteractionReply.payment_request_url)
      reply.data.expires_at

/-- The Val Town payment-request handler against a vendor oracle, paired
with the number of outbound calls made. -/
def valTownPaymentRequestHandler (e : Env) (tokens : List (String × String))
    (body : PRBody) (baseUrl origin : String) (now : Nat) (reply : VendorReply) :
    PRResponse × Nat :=
  match valTownPaymentRequestPrepare e tokens body baseUrl origin now with
  | .error r => (r, 0)
  | .ok _ => (paymentRequestInterpret body.returnUrl reply, 1)

/-- The Vercel payment-request handler against a vendor oracle, paired with
the number of outbound calls made. -/
def vercelPaymentRequestHandler (e : VercelEnv) (tokens : List (String × String))
    (body : PRBody) (baseUrl origin : String) (now : Nat) (reply : VendorReply) :
    PRResponse × Nat :=
  match vercelPaymentRequestPrepare e tokens body baseUrl origin now with
  | .error r => (r, 0)
  | .ok _ => (paymentRequestInterpret body.returnUrl reply, 1)

/-! ## Authorize-payment handler

Models `POST /api/authorize-payment` from `kn-api-requests.ts` lines
1158-1435 (identical in the second document of `api/[...].ts`). -/

/-- Request body of `POST /api/authorize-payment`. -/
structure AZBody where
  klarnaNetworkSessionToken : Option String
  paymentOptionId : Option String
  paymentRequestData : Option PaymentRequestData
  returnUrl : Option String
  appReturnUrl : Option String
  partnerAccountId : Option String
  includeCustomerToken : Bool
  country : Option String
  interoperabilityToken : Option String
  authMode : Option String
deriving DecidableEq, Repr

/-- Wire form of `request_payment_transaction`. -/
structure RequestPaymentTransactionWire where
  amount : Option Int
  payment_option_id : Option String
  payment_transaction_reference : String
deriving DecidableEq, Repr

/-- Wire form of `step_up_config`. -/
structure StepUpConfigWire where
  payment_request_reference : String
  customer_interaction_config : CustomerInteractionConfigWire
deriving DecidableEq, Repr

/-- Wire payload of the Payment Authorize API call. -/
structure AuthorizeWire where
  currency : Option String
  supplementary_purchase_data : SuppWire
  step_up_config : StepUpConfigWire
  request_payment_transaction : Option RequestPaymentTransactionWire
  request_customer_token : Option CustomerTokenRequestWire
deriving DecidableEq, Repr

/-- Build the Payment Authorize wire payload (`kn-api-requests.ts` lines
1223-1257): the payment-transaction block is omitted for wallet-only
intents. -/
def buildAuthorizeWire (data : PaymentRequestData)
    (resolvedPaymentOptionId : Option String)
    (returnUrl appReturnUrl : Option String) (origin : String) (now : Nat) :
    AuthorizeWire :=
  { currency := data.currency
    supplementary_purchase_data :=
      transformSupplementaryPurchaseData data.supplementaryPurchaseData
    step_up_config :=
      { payment_request_reference :=
          jsOrStr data.paymentRequestReference ("req_" ++ toString now)
        customer_interaction_config :=
          { method := "HANDOVER"
            return_url := jsOrStr returnUrl (origin ++ "/payment-complete")
            app_return_url := if optTruthy appReturnUrl then appReturnUrl else none } }
    request_payment_transaction :=
      if isOnlyAddToWallet data.intents then none
      else some
        { amount := data.amount
          payment_option_id := resolvedPaymentOptionId
          payment_transaction_reference :=
            jsOrStr data.paymentRequestReference ("txn_" ++ toString now) }
    request_customer_token := data.requestCustomerToken.map (fun r =>
      { scopes := r.scopes, customer_token_reference := r.customerTokenReference }) }

/-- An outbound Payment Authorize API call. -/
structure AZOutbound where
  url : String
  headers : List (String × String)
  payload : AuthorizeWire
deriving DecidableEq, Repr

/-- Caller-visible response of the authorize-payment handler. -/
inductive AZResponse where
  | error (httpStatus : Nat) (message : String)
  | stepUpRequired (paymentRequestId paymentRequestUrl expiresAt : Option String)
  | approvedWallet (customerTokenId customerTokenReference : Option String)
      (successUrl : String)
  | approvedPayment (paymentTransactionId paymentTransactionReference : Option String)
      (successUrl : String)
  | declined (message : String) (reason : Option String)
deriving DecidableEq, Repr

/-- Prepare phase of `POST /api/authorize-payment` (`kn-api-requests.ts`
lines 1174-1285): resolve credentials, require `paymentRequestData`, require
a `paymentOptionId` only for non-wallet flows, require an account id in
Acquiring-Partner mode, then build payload and headers (including the
interoperability-token header when supplied). -/
def authorizePrepare (e : Env) (tokens : List (String × String)) (body : AZBody)
    (baseUrl origin : String) (now : Nat) : Except AZResponse AZOutbound :=
  match resolveAuthConfig e body.authMode with
  | .error _ =>
    .error (.error 500 "Server configuration error: No authentication configured")
  | .ok auth =>
    match body.paymentRequestData with
    | none =>
      .error (.error 400 "Missing required field: paymentRequestData is required")
    | some data =>
      let isW := isOnlyAddToWallet data.intents
      let resolvedPaymentOptionId := jsOrOpt body.paymentOptionId data.paymentOptionId
      if !isW && !(optTruthy resolvedPaymentOptionId) then
        .error (.error 400
          "Missing paymentOptionId: provide it directly or include it in paymentRequestData")
      else
        let accountId := jsOrOpt body.partnerAccountId auth.partnerAccountId
        if auth.isAcquiringPartner && !(optTruthy accountId) then
          .error (.error 400
            "Partner Account ID is required for Acquiring Partner mode. Set AP_PARTNER_ACCOUNT_ID env var or provide in request.")
        else
          let apiPath :=
            if auth.isAcquiringPartner then
              "/v2/accounts/" ++ accountId.getD "" ++ "/payment/authorize"
            else "/v2/payment/authorize"
          let customerToken :=
            lookupCustomerTokenHeaderValue tokens body.includeCustomerToken body.country
          .ok { url := baseUrl ++ apiPath
                headers :=
                  buildKlarnaHeaders auth.apiKey body.klarnaNetworkSessionToken customerToken
                  ++ (if optTruthy body.interoperabilityToken then
                        [("Klarna-Interoperability-Token", body.interoperabilityToken.getD "")]
                      else [])
                payload := buildAuthorizeWire data resolvedPaymentOptionId
                  body.returnUrl body.appReturnUrl origin now }

/-- Fields of the `customer_token` object of the vendor reply. -/
structure CustomerTokenObjReply where
  customer_token_id : Option String
  customer_token_reference : Option String
deriving DecidableEq, Repr

/-- Fields of `customer_token_response` read from the vendor reply. -/
structure CTRespReply where
  result : Option String
  result_reason : Option String
  customer_token : Option CustomerTokenObjReply
deriving DecidableEq, Repr

/-- Fields of the `payment_transaction` object of the vendor reply. -/
structure PaymentTransactionObjReply where
  payment_transaction_id : Option String
  payment_transaction_reference : Option String
deriving DecidableEq, Repr

/-- Fields of `payment_transaction_response` read from the vendor reply. -/
structure PTRespReply where
  result : Option String
  result_reason : Option String
  payment_transaction : Option PaymentTransactionObjReply
deriving DecidableEq, Repr

/-- Fields of the `payment_request` object of the vendor reply. -/
structure PaymentRequestObjReply where
  state_context : Option StateContextReply
  expires_at : Option String
deriving DecidableEq, Repr

/-- Fields of the Payment Authorize API reply body that the handler reads. -/
structure AZKlarnaData where
  error_message : Option String
  payment_transaction_response : Option PTRespReply
  customer_token_response : Option CTRespReply
  payment_request : Option PaymentRequestObjReply
deriving DecidableEq, Repr

/-- A vendor HTTP reply to the authorize call. -/
structure AZReply where
  ok : Bool
  httpStatus : Nat
  data : AZKlarnaData
deriving DecidableEq, Repr

/-- Interpret phase of `POST /api/authorize-payment` (`kn-api-requests.ts`
lines 1347-1427): select the result field by flow type, then branch on the
four result values, with anything else becoming a 500 `ERROR`. -/
def authorizeInterpret (isW : Bool) (returnUrl : Option String)
    (reply : AZReply) : AZResponse :=
  if !reply.ok then
    .error reply.httpStatus (jsOrStr reply.data.error_message "Payment authorization failed")
  else
    let paymentResult := reply.data.payment_transaction_response.bind PTRespReply.result
    let customerTokenResult := reply.data.customer_token_response.bind CTRespReply.result
    let result := if isW then customerTokenResult else paymentResult
    match result with
    | some "STEP_UP_REQUIRED" =>
      .stepUpRequired
        (((reply.data.payment_request.bind PaymentRequestObjReply.state_context).bind
            StateContextReply.customer_interaction).bind
          CustomerInteractionReply.payment_request_id)
        (((reply.data.payment_request.bind PaymentRequestObjReply.state_context).bind
            StateContextReply.customer_interaction).bind
          CustomerInteractionReply.payment_request_url)
        (reply.data.payment_request.bind PaymentRequestObjReply.expires_at)
    | some "APPROVED" =>
      if isW then
        .approvedWallet
          ((reply.data.customer_token_response.bind CTRespReply.customer_token).bind
            CustomerTokenObjReply.customer_token_id)
          ((reply.data.customer_token_response.bind CTRespReply.customer_token).bind
            CustomerTokenObjReply.customer_token_reference)
          (jsOrStr returnUrl "/payment-complete")
      else
        .approvedPayment
          ((reply.data.payment_transaction_response.bind PTRespReply.payment_transaction).bind
            PaymentTransactionObjReply.payment_transaction_id)
          ((reply.data.payment_transaction_response.bind PTRespReply.payment_transaction).bind
            PaymentTransactionObjReply.payment_transaction_reference)
          (jsOrStr returnUrl "/payment-complete")
    | some "DECLINED" =>
      let declineReason :=
        if isW then reply.data.customer_token_response.bind CTRespReply.result_reason
        else reply.data.payment_transaction_response.bind PTRespReply.result_reason
      .declined (jsOrStr declineReason "Request declined") declineReason
    | other => .error 500 ("Unexpected result: " ++ jsInterp other)

/-- The authorize-payment handler against a vendor oracle, paired with the
number of outbound calls made. -/
def authorizeHandler (e : Env) (tokens : List (String × String)) (body : AZBody)
    (baseUrl origin : String) (now : Nat) (reply : AZReply) : AZResponse × Nat :=
  match authorizePrepare e tokens body baseUrl origin now with
  | .error r => (r, 0)
  | .ok _ =>
    (authorizeInterpret (isOnlyAddToWallet (body.paymentRequestData.bind PaymentRequestData.intents))
      body.returnUrl reply, 1)

/-! ## Interoperability token handlers

Models `POST /api/interoperability/test-tokens` (`kn-api-requests.ts` lines
467-629) and `POST /api/interoperability/sdk-tokens` (lines 634-763). -/

/-- Request body of the test-tokens endpoint. -/
structure ITBody where
  customerJourney : Option String
  country : Option String
  authMode : Option String
deriving DecidableEq, Repr

/-- Request body of the interoperability sdk-tokens endpoint. -/
structure ISBody where
  interoperabilityToken : Option String
  authMode : Option String
deriving DecidableEq, Repr

/-- Caller-visible response of the two interoperability endpoints. -/
inductive TokenResponse where
  | error (httpStatus : Nat) (message : String)
  | okTestToken (interoperabilityToken : Option String)
  | okSdkToken (sdkToken : Option String)
deriving DecidableEq, Repr

/-- The four accepted customer journeys. -/
def validJourneys : List String :=
  ["KLARNA_EXPRESS_CHECKOUT", "SIGN_IN_WITH_KLARNA",
   "KLARNA_PRE_QUALIFICATION", "KLARNA_ACCOUNT_LINKING"]

/-- An outbound test-tokens call (`customer_journey` is its request body). -/
structure ITOutbound where
  url : String
  headers : List (String × String)
  customer_journey : Option String
deriving DecidableEq, Repr

/-- An outbound interoperability sdk-tokens call (no request body). -/
structure ISOutbound where
  url : String
  headers : List (String × String)
deriving DecidableEq, Repr

/-- Prepare phase of the test-tokens endpoint (`kn-api-requests.ts` lines
467-548): resolve credentials, reject Sub-Partner mode, validate the
journey, require the account id, require a per-country customer token. -/
def testTokensPrepare (e : Env) (tokens : List (String × String)) (body : ITBody)
    (baseUrl : String) : Except TokenResponse ITOutbound :=
  match resolveAuthConfig e body.authMode with
  | .error _ =>
    .error (.error 500 "Server configuration error: No authentication configured")
  | .ok auth =>
    if !auth.isAcquiringPartner then
      .error (.error 400 "Interoperability flows are only available for Acquiring Partners")
    else if !(optTruthy body.customerJourney) then
      .error (.error 400 "Missing required field: customerJourney")
    else if !(validJourneys.contains (body.customerJourney.getD "")) then
      .error (.error 400
        ("Invalid customerJourney. Must be one of: " ++ String.intercalate ", " validJourneys))
    else if !(optTruthy auth.partnerAccountId) then
      .error (.error 500
        "Server configuration error: PARTNER_ACCOUNT_ID not set (required for interoperability)")
    else
      let customerToken :=
        if optTruthy body.country then
          getCustomerTokenForCountry tokens (body.country.getD "")
        else none
      match customerToken with
      | none =>
        .error (.error 400
          ("No customer token configured for country: " ++ jsInterp body.country))
      | some tok =>
        .ok { url := baseUrl ++ "/v2/accounts/" ++ auth.partnerAccountId.getD ""
                ++ "/interoperability/test-tokens"
              headers :=
                [("Authorization", "Basic " ++ auth.apiKey),
                 ("Content-Type", "application/json"),
                 ("Klarna-Customer-Token", tok),
                 ("Klarna-Customer-Region", "krn:test:us1:test")]
              customer_journey := body.customerJourney }

/-- Prepare phase of the interoperability sdk-tokens endpoint
(`kn-api-requests.ts` lines 634-696): resolve credentials, reject
Sub-Partner mode, require the test token and the account id. -/
def interopSdkTokensPrepare (e : Env) (body : ISBody) (baseUrl : String) :
    Except TokenResponse ISOutbound :=
  match resolveAuthConfig e body.authMode with
  | .error _ =>
    .error (.error 500 "Server configuration error: No authentication configured")
  | .ok auth =>
    if !auth.isAcquiringPartner then
      .error (.error 400 "Interoperability flows are only available for Acquiring Partners")
    else if !(optTruthy body.interoperabilityToken) then
      .error (.error 400 "Missing required field: interoperabilityToken")
    else if !(optTruthy auth.partnerAccountId) then
      .error (.error 500
        "Server configuration error: PARTNER_ACCOUNT_ID not set (required for interoperability)")
    else
      .ok { url := baseUrl ++ "/v2/accounts/" ++ auth.partnerAccountId.getD ""
              ++ "/interoperability/sdk-tokens"
            headers :=
              [("Authorization", "Basic " ++ auth.apiKey),
               ("Content-Type", "application/json"),
               ("Klarna-Interoperability-Token", body.interoperabilityToken.getD "")] }

/-- Fields of the interoperability reply bodies that the handlers read. -/
structure TokKlarnaData where
  error_message : Option String
  interoperability_token : Option String
  sdk_token : Option String
deriving DecidableEq, Repr

/-- A vendor HTTP reply to an interoperability call. -/
structure TokReply where
  ok : Bool
  httpStatus : Nat
  data : TokKlarnaData
deriving DecidableEq, Repr

/-- The test-tokens handler against a vendor oracle, with call count. -/
def testTokensHandler (e : Env) (tokens : List (String × String)) (body : ITBody)
    (baseUrl : String) (reply : TokReply) : TokenResponse × Nat :=
  match testTokensPrepare e tokens body baseUrl with
  | .error r => (r, 0)
  | .ok _ =>
    (if !reply.ok then
      .error reply.httpStatus
        (jsOrStr reply.data.error_message "Interoperability test token generation failed")
    else .okTestToken reply.data.interoperability_token, 1)

/-- The interoperability sdk-tokens handler against a vendor oracle, with
call count. -/
def interopSdkTokensHandler (e : Env) (body : ISBody) (baseUrl : String)
    (reply : TokReply) : TokenResponse × Nat :=
  match interopSdkTokensPrepare e body baseUrl with
  | .error r => (r, 0)
  | .ok _ =>
    (if !reply.ok then
      .error reply.httpStatus
        (jsOrStr reply.data.error_message "Interoperability SDK token generation failed")
    else .okSdkToken reply.data.sdk_token, 1)

/-! ## Helper lemmas -/

/-- The `isOnlyAddToWallet` test holds exactly for the one-element intents
list `["ADD_TO_WALLET"]`. -/
theorem isOnlyAddToWallet_iff (o : Option (List String)) :
    isOnlyAddToWallet o = true ↔ o = some ["ADD_TO_WALLET"] := by
  rcases o with _ | l
  · simp [isOnlyAddToWallet]
  · rcases l with _ | ⟨x, _ | ⟨y, ys⟩⟩ <;> simp [isOnlyAddToWallet]

/-- Unfolding of `getAuthConfig` at Acquiring-Partner mode. -/
theorem getAuthConfig_AP (e : Env) :
    getAuthConfig e .ACQUIRING_PARTNER =
      if hasAcquiringPartnerConfig e then some (apCreds e) else none := rfl

/-- Unfolding of `getAuthConfig` at Sub-Partner mode. -/
theorem getAuthConfig_SP (e : Env) :
    getAuthConfig e .SUB_PARTNER =
      if hasSubPartnerConfig e then some (spCreds e) else none := rfl

/-- A successful association-list lookup returns the value of some stored
pair. -/
theorem lookup_val_mem {l : List (String × String)} {k : String} {v : String}
    (h : l.lookup k = some v) : ∃ p ∈ l, p.2 = v := by
  induction l with
  | nil => simp [List.lookup] at h
  | cons p ps ih =>
    obtain ⟨k', v'⟩ := p
    rw [List.lookup] at h
    by_cases hk : k == k'
    · rw [hk] at h
      simp only [Option.some.injEq] at h
      exact ⟨(k', v'), by simp, by simpa using h⟩
    · rw [Bool.not_eq_true] at hk
      rw [hk] at h
      obtain ⟨q, hq, hqv⟩ := ih h
      exact ⟨q, by simp [hq], hqv⟩

/-! ## Claim theorems -/

/-- C1 (counterexample): the claim that a body containing carriage returns
signs identically to the carriage-return-stripped body fails at a concrete
input — `createPaytrailSignature` hashes the body verbatim, so the two
signatures differ. -/
theorem paytrail_crlf_signature_counterexample :
    ¬ ((createPaytrailSignature "POST" "/payments" []
          "amount=15900\r\ncurrency=EUR" "1100830" "sk" "n0" "t0").signature =
       (createPaytrailSignature "POST" "/payments" []
          (stripCarriageReturns "amount=15900\r\ncurrency=EUR")
          "1100830" "sk" "n0" "t0").signature) := by
  decide

/-- C1 (amended): `createPaytrailSignature` appends the request body to the
canonical header string verbatim — it performs no carriage-return stripping;
that stripping exists only in the Postman and Bruno client scripts of the
repository, not in the server signer. -/
theorem paytrail_signature_appends_body_verbatim
    (method uri body merchantId secretKey nonce timestamp : String) :
    (createPaytrailSignature method uri [] body merchantId secretKey nonce timestamp).signature =
      hexEncode (hmacSha256 (utf8Encode secretKey) (utf8Encode
        (String.intercalate "\n"
          ["checkout-account:" ++ merchantId,
           "checkout-algorithm:sha256",
           "checkout-method:" ++ method,
           "checkout-nonce:" ++ nonce,
           "checkout-timestamp:" ++ timestamp] ++ "\n" ++ body))) := by
  rfl

/-- C2: for every method, merchant account id, secret key, body, nonce and
timestamp, `createPaytrailSignatureWithCreds` produces exactly the five
`checkout-*` headers and a signature equal to the lowercase hex HMAC-SHA256,
under the shared secret, of the alphabetically sorted `key:value` lines
joined by line feeds, one further line feed, then the body. -/
theorem paytrail_signature_with_creds_canonical_spec
    (method uri body merchantId secretKey nonce timestamp : String) :
    createPaytrailSignatureWithCreds method uri [] body merchantId secretKey nonce timestamp =
      { headers :=
          [("checkout-account", merchantId),
           ("checkout-algorithm", "sha256"),
           ("checkout-method", method),
           ("checkout-nonce", nonce),
           ("checkout-timestamp", timestamp)],
        signature := hexEncode (hmacSha256 (utf8Encode secretKey) (utf8Encode
          (String.intercalate "\n"
            ["checkout-account:" ++ merchantId,
             "checkout-algorithm:sha256",
             "checkout-method:" ++ method,
             "checkout-nonce:" ++ nonce,
             "checkout-timestamp:" ++ timestamp] ++ "\n" ++ body))) } := by
  rfl

/-- C3: the caller-visible outcome of a Sub-Partner payment-request call is
determined by the vendor reply — non-2xx gives `ERROR` with the vendor
`error_message` when present; 2xx with state `COMPLETED` gives `COMPLETED`
with the success URL from the echoed `customer_interaction_config.return_url`,
falling back to the caller `returnUrl`; any other 2xx gives `CREATED` with
the ids read from `state_context.customer_interaction`. -/
theorem payment_request_vendor_reply_interpretation
    (reply : VendorReply) (returnUrl : Option String) :
    (reply.ok = false → ∀ msg, reply.data.error_message = some msg → msg ≠ "" →
      paymentRequestInterpret returnUrl reply = .error reply.httpStatus msg)
    ∧ (reply.ok = true → reply.data.state = some "COMPLETED" →
        (∀ u, reply.data.customer_interaction_config.bind CICReply.return_url = some u →
          u ≠ "" →
          paymentRequestInterpret returnUrl reply =
            .completed reply.data.payment_request_id u reply.data.expires_at)
        ∧ (optTruthy (reply.data.customer_interaction_config.bind CICReply.return_url) = false →
            ∀ r, returnUrl = some r → r ≠ "" →
          paymentRequestInterpret returnUrl reply =
            .completed reply.data.payment_request_id r reply.data.expires_at))
    ∧ (reply.ok = true → reply.data.state ≠ some "COMPLETED" →
        paymentRequestInterpret returnUrl reply = .created
          ((reply.data.state_context.bind StateContextReply.customer_interaction).bind
            CustomerInteractionReply.payment_request_id)
          ((reply.data.state_context.bind StateContextReply.customer_interaction).bind
            CustomerInteractionReply.payment_request_url)
          reply.data.expires_at) := by
  refine ⟨?_, ?_, ?_⟩
  · intro hok msg hmsg hne
    simp [paymentRequestInterpret, hok, jsOrStr, hmsg, hne]
  · intro hok hst
    constructor
    · intro u hu hune
      simp [paymentRequestInterpret, hok, hst, jsOr3, jsOrOpt, jsOrStr, hu, optTruthy,
        strTruthy, hune]
    · intro hfal r hr hrne
      simp [paymentRequestInterpret, hok, hst, jsOr3, jsOrOpt, jsOrStr, hfal, hr, hrne]
  · intro hok hst
    simp [paymentRequestInterpret, hok, hst]

/-- C3 (witness): two concrete vendor replies — a 2xx `COMPLETED` reply with
no echoed return URL falls back to the caller `returnUrl`, and a 403 reply
surfaces the vendor `error_message`. -/
theorem payment_request_vendor_reply_interpretation_witness :
    (paymentRequestInterpret (some "https://caller/return")
      ({ ok := true, httpStatus := 200,
         data :=
           { state := some "COMPLETED", payment_request_id := some "pr_2",
             expires_at := none, error_message := none,
             customer_interaction_config := none,
             state_context := none } } : VendorReply) =
      .completed (some "pr_2") "https://caller/return" none)
    ∧ (paymentRequestInterpret none
      ({ ok := false, httpStatus := 403,
         data :=
           { state := none, payment_request_id := none,
             expires_at := none, error_message := some "bad credentials",
             customer_interaction_config := none,
             state_context := none } } : VendorReply) =
      .error 403 "bad credentials") :=
  ⟨((payment_request_vendor_reply_interpretation
      ⟨true, 200, ⟨some "COMPLETED", some "pr_2", none, none, none, none⟩⟩
      (some "https://caller/return")).2.1 rfl rfl).2 (by decide) _ rfl (by decide),
   (payment_request_vendor_reply_interpretation
      ⟨false, 403, ⟨none, none, none, some "bad credentials", none, none⟩⟩
      none).1 rfl _ rfl (by decide)⟩

/-- C4: on a 2xx authorize reply the result field consulted depends on the
request type — exactly `["ADD_TO_WALLET"]` reads `customer_token_response.result`,
anything else reads `payment_transaction_response.result` — and the values
`STEP_UP_REQUIRED` / `APPROVED` / `DECLINED` map to the like-named outcomes
(approval carrying customer-token fields for wallet-only flows and
payment-transaction fields otherwise, decline carrying the vendor
`result_reason` verbatim), with any other value mapping to `ERROR`. -/
theorem authorize_result_switch_spec (intents : Option (List String))
    (returnUrl : Option String) (reply : AZReply) (hok : reply.ok = true) :
    (isOnlyAddToWallet intents = true ↔ intents = some ["ADD_TO_WALLET"])
    ∧ ((if isOnlyAddToWallet intents then
          reply.data.customer_token_response.bind CTRespReply.result
        else reply.data.payment_transaction_response.bind PTRespReply.result) =
          some "STEP_UP_REQUIRED" →
        authorizeInterpret (isOnlyAddToWallet intents) returnUrl reply =
          .stepUpRequired
            (((reply.data.payment_request.bind PaymentRequestObjReply.state_context).bind
                StateContextReply.customer_interaction).bind
              CustomerInteractionReply.payment_request_id)
            (((reply.data.payment_request.bind PaymentRequestObjReply.state_context).bind
                StateContextReply.customer_interaction).bind
              CustomerInteractionReply.payment_request_url)
            (reply.data.payment_request.bind PaymentRequestObjReply.expires_at))
    ∧ (isOnlyAddToWallet intents = true →
        reply.data.customer_token_response.bind CTRespReply.result = some "APPROVED" →
        authorizeInterpret (isOnlyAddToWallet intents) returnUrl reply =
          .approvedWallet
            ((reply.data.customer_token_response.bind CTRespReply.customer_token).bind
              CustomerTokenObjReply.customer_token_id)
            ((reply.data.customer_token_response.bind CTRespReply.customer_token).bind
              CustomerTokenObjReply.customer_token_reference)
            (jsOrStr returnUrl "/payment-complete"))
    ∧ (isOnlyAddToWallet intents = false →
        reply.data.payment_transaction_response.bind PTRespReply.result = some "APPROVED" →
        authorizeInterpret (isOnlyAddToWallet intents) returnUrl reply =
          .approvedPayment
            ((reply.data.payment_transaction_response.bind PTRespReply.payment_transaction).bind
              PaymentTransactionObjReply.payment_transaction_id)
            ((reply.data.payment_transaction_response.bind PTRespReply.payment_transaction).bind
              PaymentTransactionObjReply.payment_transaction_reference)
            (jsOrStr returnUrl "/payment-complete"))
    ∧ ((if isOnlyAddToWallet intents then
          reply.data.customer_token_response.bind CTRespReply.result
        else reply.data.payment_transaction_response.bind PTRespReply.result) =
          some "DECLINED" →
        authorizeInterpret (isOnlyAddToWallet intents) returnUrl reply =
          .declined
            (jsOrStr (if isOnlyAddToWallet intents then
                reply.data.customer_token_response.bind CTRespReply.result_reason
              else reply.data.payment_transaction_response.bind PTRespReply.result_reason)
              "Request declined")
            (if isOnlyAddToWallet intents then
              reply.data.customer_token_response.bind CTRespReply.result_reason
            else reply.data.payment_transaction_response.bind PTRespReply.result_reason))
    ∧ (∀ r, (if isOnlyAddToWallet intents then
          reply.data.customer_token_response.bind CTRespReply.result
        else reply.data.payment_transaction_response.bind PTRespReply.result) = r →
        r ≠ some "STEP_UP_REQUIRED" → r ≠ some "APPROVED" → r ≠ some "DECLINED" →
        authorizeInterpret (isOnlyAddToWallet intents) returnUrl reply =
          .error 500 ("Unexpected result: " ++ jsInterp r)) := by
  refine ⟨isOnlyAddToWallet_iff intents, ?_, ?_, ?_, ?_, ?_⟩
  · intro hres
    simp [authorizeInterpret, hok, hres]
  · intro hw hres
    simp [authorizeInterpret, hok, hw, hres]
  · intro hw hres
    simp [authorizeInterpret, hok, hw, hres]
  · intro hres
    simp [authorizeInterpret, hok, hres]
  · intro r hres h1 h2 h3
    rcases r with _ | s
    · simp [authorizeInterpret, hok, hres, jsInterp]
    · have hs1 : s ≠ "STEP_UP_REQUIRED" := by rintro rfl; exact h1 rfl
      have hs2 : s ≠ "APPROVED" := by rintro rfl; exact h2 rfl
      have hs3 : s ≠ "DECLINED" := by rintro rfl; exact h3 rfl
      simp [authorizeInterpret, hok, hres, jsInterp, hs1, hs2, hs3]

/-- C4 (witness): a wallet-only authorize reply whose
`customer_token_response.result` is `APPROVED` yields the customer-token
success shape (spec scenario C). -/
theorem authorize_result_switch_spec_witness :
    authorizeInterpret (isOnlyAddToWallet (some ["ADD_TO_WALLET"])) none
      ({ ok := true, httpStatus := 200,
         data :=
           { error_message := none, payment_transaction_response := none,
             customer_token_response := some
               { result := some "APPROVED", result_reason := none,
                 customer_token := some
                   { customer_token_id := some "ct_1",
                     customer_token_reference := none } },
             payment_request := none } } : AZReply) =
      .approvedWallet (some "ct_1") none "/payment-complete" :=
  (authorize_result_switch_spec (some ["ADD_TO_WALLET"]) none _ rfl).2.2.1 rfl rfl

/-- C5 (counterexample): the Vercel `/api/payment-request` variant does not
fail fast when `paymentOptionId` is absent from both sources — at a concrete
request it proceeds to the vendor call (one outbound call) and returns the
`CREATED` outcome instead of a 400. -/
theorem vercel_payment_request_missing_option_id_counterexample :
    vercelPaymentRequestHandler ⟨"client_1", "key_1"⟩ []
      ({ klarnaNetworkSessionToken := none, paymentOptionId := none,
         paymentRequestData := some
           { currency := some "EUR", paymentRequestReference := some "ref_1",
             amount := some 15900, intents := some ["PAY"], paymentOptionId := none,
             supplementaryPurchaseData := none, requestCustomerToken := none },
         returnUrl := some "https://shop.example/done", appReturnUrl := none,
         includeCustomerToken := false, country := none, authMode := none } : PRBody)
      "https://api-global.test.klarna.com" "https://shop.example" 0
      ({ ok := true, httpStatus := 201,
         data :=
           { state := some "SUBMITTED", payment_request_id := none,
             expires_at := none, error_message := none,
             customer_interaction_config := none,
             state_context := some
               { customer_interaction := some
                   { payment_request_id := some "pr_1",
                     payment_request_url := some "https://x" } } } } : VendorReply) =
      (.created (some "pr_1") (some "https://x") none, 1) := by
  rfl

/-- C5 (amended): the Val Town variant fails fast with a 400 before any
vendor call when `paymentOptionId` is absent from both the direct parameter
and `paymentRequestData`; the Vercel variant instead treats it as optional,
proceeding to the vendor with `payment_option_id` omitted from the payload;
in both variants a supplied value is resolved with the top-level parameter
preferred and sent as `payment_option_id`. -/
theorem payment_option_id_resolution_spec :
    (∀ (e : Env) (tokens : List (String × String)) (body : PRBody)
        (baseUrl origin : String) (now : Nat) (reply : VendorReply)
        (auth : AuthConfig) (data : PaymentRequestData),
      resolveAuthConfig e body.authMode = .ok auth →
      body.paymentRequestData = some data →
      optTruthy (jsOrOpt body.paymentOptionId data.paymentOptionId) = false →
      valTownPaymentRequestHandler e tokens body baseUrl origin now reply =
        (.error 400
          "Missing paymentOptionId: provide it directly or include it in paymentRequestData", 0))
    ∧ (∀ (e : Env) (tokens : List (String × String)) (body : PRBody)
        (baseUrl origin : String) (now : Nat)
        (auth : AuthConfig) (data : PaymentRequestData),
      resolveAuthConfig e body.authMode = .ok auth →
      body.paymentRequestData = some data →
      optTruthy (jsOrOpt body.paymentOptionId data.paymentOptionId) = true →
      (valTownPaymentRequestPrepare e tokens body baseUrl origin now).toOption.map
          (fun o => o.payload.payment_option_id) =
        some (jsOrOpt body.paymentOptionId data.paymentOptionId))
    ∧ (∀ (ve : VercelEnv) (tokens : List (String × String)) (body : PRBody)
        (baseUrl origin : String) (now : Nat)
        (auth : String × String) (data : PaymentRequestData),
      vercelResolveAuthConfig ve = .ok auth →
      body.paymentRequestData = some data →
      optTruthy (jsOrOpt body.paymentOptionId data.paymentOptionId) = true →
      (vercelPaymentRequestPrepare ve tokens body baseUrl origin now).toOption.map
          (fun o => o.payload.payment_option_id) =
        some (jsOrOpt body.paymentOptionId data.paymentOptionId))
    ∧ (∀ (ve : VercelEnv) (tokens : List (String × String)) (body : PRBody)
        (baseUrl origin : String) (now : Nat) (reply : VendorReply)
        (auth : String × String) (data : PaymentRequestData),
      vercelResolveAuthConfig ve = .ok auth →
      body.paymentRequestData = some data →
      optTruthy (jsOrOpt body.paymentOptionId data.paymentOptionId) = false →
      (vercelPaymentRequestPrepare ve tokens body baseUrl origin now).toOption.map
          (fun o => o.payload.payment_option_id) = some none
      ∧ (vercelPaymentRequestHandler ve tokens body baseUrl origin now reply).2 = 1)
    ∧ (∀ a b : Option String, optTruthy a = true → jsOrOpt a b = a) := by
  refine ⟨?_, ?_, ?_, ?_, ?_⟩
  · intro e tokens body baseUrl origin now reply auth data hauth hprd hfal
    simp [valTownPaymentRequestHandler, valTownPaymentRequestPrepare, hauth, hprd, hfal]
  · intro e tokens body baseUrl origin now auth data hauth hprd htru
    simp [valTownPaymentRequestPrepare, hauth, hprd, htru, buildPaymentRequestWire,
      Except.toOption]
  · intro ve tokens body baseUrl origin now auth data hauth hprd htru
    simp [vercelPaymentRequestPrepare, hauth, hprd, htru, buildPaymentRequestWire,
      Except.toOption]
  · intro ve tokens body baseUrl origin now reply auth data hauth hprd hfal
    constructor
    · simp [vercelPaymentRequestPrepare, hauth, hprd, hfal, buildPaymentRequestWire,
        Except.toOption]
    · simp [vercelPaymentRequestHandler, vercelPaymentRequestPrepare, hauth, hprd, hfal]
  · intro a b htru
    simp [jsOrOpt, htru]

/-- C5 (witness): a concrete Val Town request with Sub-Partner credentials
and no `paymentOptionId` anywhere is rejected with the 400 message and zero
vendor calls. -/
theorem payment_option_id_resolution_spec_witness :
    valTownPaymentRequestHandler ⟨"", "", "", "sp_client", "sp_key"⟩ []
      ({ klarnaNetworkSessionToken := none, paymentOptionId := none,
         paymentRequestData := some
           { currency := some "EUR", paymentRequestReference := none,
             amount := some 15900, intents := some ["PAY"], paymentOptionId := none,
             supplementaryPurchaseData := none, requestCustomerToken := none },
         returnUrl := none, appReturnUrl := none,
         includeCustomerToken := false, country := none,
         authMode := some "SUB_PARTNER" } : PRBody)
      "https://api-global.test.klarna.com" "https://shop.example" 0
      ({ ok := true, httpStatus := 201,
         data :=
           { state := none, payment_request_id := none, expires_at := none,
             error_message := none, customer_interaction_config := none,
             state_context := none } } : VendorReply) =
      (.error 400
        "Missing paymentOptionId: provide it directly or include it in paymentRequestData", 0) :=
  payment_option_id_resolution_spec.1 _ _ _ _ _ _ _
    ⟨"sp_client", "sp_key", none, false⟩ _ rfl rfl rfl

/-- C6: whenever the request body lacks `paymentRequestData` and credentials
resolve, each of the three handlers — the Val Town and Vercel
payment-request handlers and the authorize-payment handler — returns the
400 validation error and makes zero outbound vendor calls. -/
theorem missing_payment_request_data_rejection (e : Env) (ve : VercelEnv)
    (tokens : List (String × String)) (prBody : PRBody) (azBody : AZBody)
    (baseUrl origin : String) (now : Nat) (prReply : VendorReply)
    (azReply : AZReply) :
    (∀ auth, resolveAuthConfig e prBody.authMode = .ok auth →
      prBody.paymentRequestData = none →
      valTownPaymentRequestHandler e tokens prBody baseUrl origin now prReply =
        (.error 400 "Missing required field: paymentRequestData is required", 0))
    ∧ (∀ auth, vercelResolveAuthConfig ve = .ok auth →
      prBody.paymentRequestData = none →
      vercelPaymentRequestHandler ve tokens prBody baseUrl origin now prReply =
        (.error 400 "Missing required field: paymentRequestData is required", 0))
    ∧ (∀ auth, resolveAuthConfig e azBody.authMode = .ok auth →
      azBody.paymentRequestData = none →
      authorizeHandler e tokens azBody baseUrl origin now azReply =
        (.error 400 "Missing required field: paymentRequestData is required", 0)) := by
  refine ⟨?_, ?_, ?_⟩
  · intro auth hauth hprd
    simp [valTownPaymentRequestHandler, valTownPaymentRequestPrepare, hauth, hprd]
  · intro auth hauth hprd
    simp [vercelPaymentRequestHandler, vercelPaymentRequestPrepare, hauth, hprd]
  · intro auth hauth hprd
    simp [authorizeHandler, authorizePrepare, hauth, hprd]

/-- C6 (witness): a concrete Val Town request without `paymentRequestData`
is rejected with the 400 message and zero vendor calls. -/
theorem missing_payment_request_data_rejection_witness :
    valTownPaymentRequestHandler ⟨"", "", "", "sp_client", "sp_key"⟩ []
      ({ klarnaNetworkSessionToken := none, paymentOptionId := none,
         paymentRequestData := none, returnUrl := none, appReturnUrl := none,
         includeCustomerToken := false, country := none, authMode := none } : PRBody)
      "https://api-global.test.klarna.com" "https://shop.example" 0
      ({ ok := true, httpStatus := 201,
         data :=
           { state := none, payment_request_id := none, expires_at := none,
             error_message := none, customer_interaction_config := none,
             state_context := none } } : VendorReply) =
      (.error 400 "Missing required field: paymentRequestData is required", 0) :=
  (missing_payment_request_data_rejection _ ⟨"", ""⟩ _ _
    ({ klarnaNetworkSessionToken := none, paymentOptionId := none,
       paymentRequestData := none, returnUrl := none, appReturnUrl := none,
       partnerAccountId := none, includeCustomerToken := false, country := none,
       interoperabilityToken := none, authMode := none } : AZBody)
    _ _ _ _ ⟨true, 200, ⟨none, none, none, none⟩⟩).1
    ⟨"sp_client", "sp_key", none, false⟩ rfl rfl

/-- C7: the built Payment Request wire payload omits `amount` exactly when
the intents list is the one-element list `["ADD_TO_WALLET"]`; for every
other intents value (absent included) it carries
`paymentRequestData.amount` unchanged. -/
theorem wallet_only_amount_omission (data : PaymentRequestData)
    (poid returnUrl appReturnUrl : Option String) (origin : String) (now : Nat) :
    (buildPaymentRequestWire data poid returnUrl appReturnUrl origin now).amount
      = (if data.intents = some ["ADD_TO_WALLET"] then none else data.amount) := by
  show (if isOnlyAddToWallet data.intents then none else data.amount) = _
  by_cases h : data.intents = some ["ADD_TO_WALLET"]
  · simp [h, isOnlyAddToWallet]
  · have : isOnlyAddToWallet data.intents = false := by
      rcases hb : isOnlyAddToWallet data.intents
      · rfl
      · exact absurd ((isOnlyAddToWallet_iff data.intents).1 hb) h
    simp [h, this]

/-- C8: whenever credentials resolve to a configuration with
`isAcquiringPartner = false`, both interoperability endpoints reject with
the 400 Acquiring-Partners-only message and make zero vendor calls. -/
theorem interop_sub_partner_rejection (e : Env)
    (tokens : List (String × String)) (itBody : ITBody) (isBody : ISBody)
    (baseUrl : String) (reply1 reply2 : TokReply) :
    (∀ auth, resolveAuthConfig e itBody.authMode = .ok auth →
      auth.isAcquiringPartner = false →
      testTokensHandler e tokens itBody baseUrl reply1 =
        (.error 400 "Interoperability flows are only available for Acquiring Partners", 0))
    ∧ (∀ auth, resolveAuthConfig e isBody.authMode = .ok auth →
      auth.isAcquiringPartner = false →
      interopSdkTokensHandler e isBody baseUrl reply2 =
        (.error 400 "Interoperability flows are only available for Acquiring Partners", 0)) := by
  constructor
  · intro auth hauth hsp
    simp [testTokensHandler, testTokensPrepare, hauth, hsp]
  · intro auth hauth hsp
    simp [interopSdkTokensHandler, interopSdkTokensPrepare, hauth, hsp]

/-- C8 (witness): with Sub-Partner-only credentials, concrete test-token and
sdk-token requests are both rejected with the 400 message and zero calls. -/
theorem interop_sub_partner_rejection_witness :
    (testTokensHandler ⟨"", "", "", "sp_client", "sp_key"⟩ []
      ({ customerJourney := some "KLARNA_EXPRESS_CHECKOUT", country := some "US",
         authMode := some "SUB_PARTNER" } : ITBody)
      "https://api-global.test.klarna.com"
      ({ ok := true, httpStatus := 200, data := ⟨none, none, none⟩ } : TokReply) =
      (.error 400 "Interoperability flows are only available for Acquiring Partners", 0))
    ∧ (interopSdkTokensHandler ⟨"", "", "", "sp_client", "sp_key"⟩
      ({ interoperabilityToken := some "itok_1", authMode := none } : ISBody)
      "https://api-global.test.klarna.com"
      ({ ok := true, httpStatus := 200, data := ⟨none, none, none⟩ } : TokReply) =
      (.error 400 "Interoperability flows are only available for Acquiring Partners", 0)) :=
  ⟨(interop_sub_partner_rejection _ _ _ ⟨some "itok_1", none⟩ _ _
      ⟨true, 200, ⟨none, none, none⟩⟩).1
      ⟨"sp_client", "sp_key", none, false⟩ rfl rfl,
   (interop_sub_partner_rejection ⟨"", "", "", "sp_client", "sp_key"⟩ []
      ⟨some "KLARNA_EXPRESS_CHECKOUT", some "US", some "SUB_PARTNER"⟩ _
      "https://api-global.test.klarna.com" ⟨true, 200, ⟨none, none, none⟩⟩ _).2
      ⟨"sp_client", "sp_key", none, false⟩ rfl rfl⟩

/-- C9: `resolveAuthConfig` coincides with its specification — a requested
mode naming a fully configured mode resolves to that mode, anything else
falls back to the default mode (Acquiring Partner when fully configured,
else Sub Partner), and a configuration error arises exactly when neither
mode has a complete credential set. -/
theorem resolve_auth_config_matches_spec (e : Env) (r : Option String) :
    resolveAuthConfig e r = resolveAuthConfigSpec e r := by
  unfold resolveAuthConfig resolveAuthConfigSpec
  rcases hp : parseRequestedMode r with _ | md
  · simp only [Option.getD]
    unfold defaultAuthMode
    by_cases hA : hasAcquiringPartnerConfig e
    · simp [hA, getAuthConfig_AP]
    · by_cases hS : hasSubPartnerConfig e <;>
        simp [hA, hS, getAuthConfig_AP, getAuthConfig_SP]
  · rcases md with _ | _
    · by_cases hS : hasSubPartnerConfig e
      · simp [hS, getAuthConfig_SP, fullyConfigured, credsOf]
      · unfold defaultAuthMode
        by_cases hA : hasAcquiringPartnerConfig e <;>
          simp [hA, hS, getAuthConfig_AP, getAuthConfig_SP, fullyConfigured, credsOf]
    · by_cases hA : hasAcquiringPartnerConfig e
      · simp [hA, getAuthConfig_AP, fullyConfigured, credsOf, defaultAuthMode]
      · unfold defaultAuthMode
        by_cases hS : hasSubPartnerConfig e <;>
          simp [hA, hS, getAuthConfig_AP, getAuthConfig_SP, fullyConfigured, credsOf]

/-- C10: the per-country customer-token lookup is total and case-insensitive
— it returns the token stored under the uppercased country code, `none` for
the empty string or an unconfigured country (never an error), two countries
with the same uppercased form resolve identically, and a missing token means
the `Klarna-Customer-Token` header is simply absent while the prepared
request succeeds or fails independently of the token table. -/
theorem customer_token_lookup_total_case_insensitive
    (tokens : List (String × String)) (c : String)
    (hvals : ∀ p ∈ tokens, p.2 ≠ "") :
    (getCustomerTokenForCountry tokens c =
      if c = "" then none else tokens.lookup (jsToUpper c))
    ∧ (∀ c', jsToUpper c' = jsToUpper c → c ≠ "" → c' ≠ "" →
        getCustomerTokenForCountry tokens c' = getCustomerTokenForCountry tokens c)
    ∧ (∀ apiKey knst,
        "Klarna-Customer-Token" ∉ (buildKlarnaHeaders apiKey knst none).map Prod.fst)
    ∧ (∀ (e : Env) (body : PRBody) (baseUrl origin : String) (now : Nat)
        (tokens' : List (String × String)),
        (valTownPaymentRequestPrepare e tokens body baseUrl origin now).toOption.isSome =
        (valTownPaymentRequestPrepare e tokens' body baseUrl origin now).toOption.isSome) := by
  refine ⟨?_, ?_, ?_, ?_⟩
  · unfold getCustomerTokenForCountry
    by_cases hc : c = ""
    · simp [hc]
    · simp only [hc, if_neg, beq_iff_eq, if_false]
      rcases hl : tokens.lookup (jsToUpper c) with _ | t
      · simp [hl]
      · obtain ⟨p, hp, hpv⟩ := lookup_val_mem hl
        have : t ≠ "" := hpv ▸ hvals p hp
        simp [hl, this]
  · intro c' hup hc hc'
    unfold getCustomerTokenForCountry
    simp [hc, hc', hup]
  · intro apiKey knst
    unfold buildKlarnaHeaders
    split <;> simp [optTruthy]
  · intro e body baseUrl origin now tokens'
    unfold valTownPaymentRequestPrepare
    cases resolveAuthConfig e body.authMode <;> simp
    cases body.paymentRequestData with
    | none => simp
    | some data =>
      by_cases hif : optTruthy (jsOrOpt body.paymentOptionId data.paymentOptionId) = false <;>
        simp [hif, Except.toOption]

/-- C10 (witness): with the token table `{SE: tok_se}`, the lowercase
country `se` resolves the token and the empty country resolves `none`. -/
theorem customer_token_lookup_total_case_insensitive_witness :
    (getCustomerTokenForCountry [("SE", "tok_se")] "se" = some "tok_se")
    ∧ (getCustomerTokenForCountry [("SE", "tok_se")] "" = none) :=
  ⟨((customer_token_lookup_total_case_insensitive [("SE", "tok_se")] "se"
      (by decide)).1).trans (by decide),
   ((customer_token_lookup_total_case_insensitive [("SE", "tok_se")] ""
      (by decide)).1).trans (by decide)⟩
